import Mathlib

/-!
Verification of the Teanga core (layered annotation data model) against its
specification.  The Python sources in `teanga/` are shallowly embedded below:
pure functions become Lean functions, Python exceptions become `Except String`,
Python `int` becomes `Int` (arbitrary precision, possibly negative), machine
words in the hash function are `Nat` reduced `% 2^32`.
-/

deriving instance DecidableEq for Except

namespace Teanga

/-! ## Identifier generator (`teanga/utils.py`, `teanga_id_for_doc`)

The Python code builds a concatenation of `key + "\x00" + value + "\x00"` over
the sorted keyword arguments, hashes it with SHA-256, encodes the digest with
`base64.b64encode` (the *standard* alphabet, `+` and `/`), and extends the
4-character prefix while it collides with an existing id. -/

/-- 32-bit truncation, `x % 2^32`. -/
def w32 (n : Nat) : Nat := n % 4294967296

/-- Right rotation of a 32-bit word. -/
def rotr (x n : Nat) : Nat := w32 ((x >>> n) ||| (x <<< (32 - n)))

def smallSigma0 (x : Nat) : Nat := (rotr x 7) ^^^ (rotr x 18) ^^^ (x >>> 3)

def smallSigma1 (x : Nat) : Nat := (rotr x 17) ^^^ (rotr x 19) ^^^ (x >>> 10)

def bigSigma0 (x : Nat) : Nat := (rotr x 2) ^^^ (rotr x 13) ^^^ (rotr x 22)

def bigSigma1 (x : Nat) : Nat := (rotr x 6) ^^^ (rotr x 11) ^^^ (rotr x 25)

/-- The SHA-256 round constants (first 32 bits of the fractional parts of the
cube roots of the first 64 primes). -/
def kConst : List Nat :=
  [1116352408, 1899447441, 3049323471, 3921009573, 961987163, 1508970993,
   2453635748, 2870763221, 3624381080, 310598401, 607225278, 1426881987,
   1925078388, 2162078206, 2614888103, 3248222580, 3835390401, 4022224774,
   264347078, 604807628, 770255983, 1249150122, 1555081692, 1996064986,
   2554220882, 2821834349, 2952996808, 3210313671, 3336571891, 3584528711,
   113926993, 338241895, 666307205, 773529912, 1294757372, 1396182291,
   1695183700, 1986661051, 2177026350, 2456956037, 2730485921, 2820302411,
   3259730800, 3345764771, 3516065817, 3600352804, 4094571909, 275423344,
   430227734, 506948616, 659060556, 883997877, 958139571, 1322822218,
   1537002063, 1747873779, 1955562222, 2024104815, 2227730452, 2361852424,
   2428436474, 2756734187, 3204031479, 3329325298]

/-- The eight 32-bit working registers of the SHA-256 compression function. -/
structure H8 where
  a : Nat
  b : Nat
  c : Nat
  d : Nat
  e : Nat
  f : Nat
  g : Nat
  h : Nat
deriving DecidableEq

/-- Initial hash value (first 32 bits of the fractional parts of the square
roots of the first 8 primes). -/
def initialH : H8 :=
  ⟨1779033703, 3144134277, 1013904242, 2773480762,
   1359893119, 2600822924, 528734635, 1541459225⟩

/-- One SHA-256 round; `wk` is the pair of the message-schedule word and the
round constant. -/
def shaRound (s : H8) (wk : Nat × Nat) : H8 :=
  let ch := (s.e &&& s.f) ^^^ ((s.e ^^^ 4294967295) &&& s.g)
  let maj := (s.a &&& s.b) ^^^ (s.a &&& s.c) ^^^ (s.b &&& s.c)
  let t1 := w32 (s.h + bigSigma1 s.e + ch + wk.1 + wk.2)
  let t2 := w32 (bigSigma0 s.a + maj)
  ⟨w32 (t1 + t2), s.a, s.b, s.c, w32 (s.d + t1), s.e, s.f, s.g⟩

/-- Extend the 16 block words by `fuel` further message-schedule words. -/
def extendW (ws : List Nat) : Nat → List Nat
  | 0 => ws
  | fuel + 1 =>
      let n := ws.length
      let w := w32 ((ws.getD (n - 16) 0) + smallSigma0 (ws.getD (n - 15) 0) +
                    (ws.getD (n - 7) 0) + smallSigma1 (ws.getD (n - 2) 0))
      extendW (ws ++ [w]) fuel

/-- Compress one 16-word block into the running hash state. -/
def compressBlock (s : H8) (block : List Nat) : H8 :=
  let t := ((extendW block 48).zip kConst).foldl shaRound s
  ⟨w32 (s.a + t.a), w32 (s.b + t.b), w32 (s.c + t.c), w32 (s.d + t.d),
   w32 (s.e + t.e), w32 (s.f + t.f), w32 (s.g + t.g), w32 (s.h + t.h)⟩

/-- Big-endian 8-byte encoding of a (64-bit) length. -/
def be8 (n : Nat) : List Nat :=
  [(n >>> 56) &&& 255, (n >>> 48) &&& 255, (n >>> 40) &&& 255,
   (n >>> 32) &&& 255, (n >>> 24) &&& 255, (n >>> 16) &&& 255,
   (n >>> 8) &&& 255, n &&& 255]

/-- SHA-256 message padding: a `0x80` byte, zeros to 56 mod 64, then the
bit length, big-endian over 8 bytes. -/
def shaPad (msg : List Nat) : List Nat :=
  let l := msg.length
  let k := (64 - ((l + 9) % 64)) % 64
  msg ++ 128 :: (List.replicate k 0 ++ be8 (8 * l))

/-- Split a byte list into 64-byte chunks (structural recursion on a fuel
bound, so that concrete computations reduce in the kernel). -/
def chunks64Go : Nat → List Nat → List (List Nat)
  | 0, _ => []
  | _, [] => []
  | fuel + 1, x :: rest => (x :: rest).take 64 :: chunks64Go fuel ((x :: rest).drop 64)

/-- Split a byte list into 64-byte chunks. -/
def chunks64 (l : List Nat) : List (List Nat) := chunks64Go l.length l

/-- Group a 64-byte chunk into 16 big-endian 32-bit words. -/
def bytesToWords : List Nat → List Nat
  | a :: b :: c :: d :: rest =>
      ((a <<< 24) ||| (b <<< 16) ||| (c <<< 8) ||| d) :: bytesToWords rest
  | _ => []

/-- Serialize the final hash state as 32 big-endian bytes. -/
def wordsToBytes (s : H8) : List Nat :=
  [(s.a >>> 24) &&& 255, (s.a >>> 16) &&& 255, (s.a >>> 8) &&& 255, s.a &&& 255,
   (s.b >>> 24) &&& 255, (s.b >>> 16) &&& 255, (s.b >>> 8) &&& 255, s.b &&& 255,
   (s.c >>> 24) &&& 255, (s.c >>> 16) &&& 255, (s.c >>> 8) &&& 255, s.c &&& 255,
   (s.d >>> 24) &&& 255, (s.d >>> 16) &&& 255, (s.d >>> 8) &&& 255, s.d &&& 255,
   (s.e >>> 24) &&& 255, (s.e >>> 16) &&& 255, (s.e >>> 8) &&& 255, s.e &&& 255,
   (s.f >>> 24) &&& 255, (s.f >>> 16) &&& 255, (s.f >>> 8) &&& 255, s.f &&& 255,
   (s.g >>> 24) &&& 255, (s.g >>> 16) &&& 255, (s.g >>> 8) &&& 255, s.g &&& 255,
   (s.h >>> 24) &&& 255, (s.h >>> 16) &&& 255, (s.h >>> 8) &&& 255, s.h &&& 255]

/-- SHA-256 of a byte list (bytes are naturals below 256). -/
def sha256 (msg : List Nat) : List Nat :=
  wordsToBytes (((chunks64 (shaPad msg)).map bytesToWords).foldl compressBlock initialH)

/-- The standard base64 alphabet as used by Python's `base64.b64encode`. -/
def b64Alphabet : List Char :=
  ['A','B','C','D','E','F','G','H','I','J','K','L','M','N','O','P','Q','R','S',
   'T','U','V','W','X','Y','Z','a','b','c','d','e','f','g','h','i','j','k','l',
   'm','n','o','p','q','r','s','t','u','v','w','x','y','z','0','1','2','3','4',
   '5','6','7','8','9','+','/']

/-- Look up a 6-bit group in the base64 alphabet. -/
def b64Char (n : Nat) : Char := b64Alphabet.getD n 'A'

/-- Standard base64 encoding of a byte list, with `=` padding, as performed by
Python's `base64.b64encode`. -/
def b64encode : List Nat → List Char
  | [] => []
  | [a] => [b64Char (a >>> 2), b64Char ((a &&& 3) <<< 4), '=', '=']
  | [a, b] => [b64Char (a >>> 2), b64Char (((a &&& 3) <<< 4) ||| (b >>> 4)),
               b64Char ((b &&& 15) <<< 2), '=']
  | a :: b :: c :: rest =>
      b64Char (a >>> 2) :: b64Char (((a &&& 3) <<< 4) ||| (b >>> 4)) ::
      b64Char (((b &&& 15) <<< 2) ||| (c >>> 6)) :: b64Char (c &&& 63) ::
      b64encode rest

/-- UTF-8 encoding of a single character (as `str.encode("utf-8")` does). -/
def utf8Char (c : Char) : List Nat :=
  let n := c.toNat
  if n < 128 then [n]
  else if n < 2048 then [192 ||| (n >>> 6), 128 ||| (n &&& 63)]
  else if n < 65536 then
    [224 ||| (n >>> 12), 128 ||| ((n >>> 6) &&& 63), 128 ||| (n &&& 63)]
  else
    [240 ||| (n >>> 18), 128 ||| ((n >>> 12) &&& 63),
     128 ||| ((n >>> 6) &&& 63), 128 ||| (n &&& 63)]

/-- UTF-8 encoding of a string as a byte list. -/
def utf8 (s : String) : List Nat := (s.toList.map utf8Char).flatten

/-- Insertion of a key-value pair into a key-sorted association list. -/
def insertSorted (p : String × String) : List (String × String) → List (String × String)
  | [] => [p]
  | q :: rest => if p.1 ≤ q.1 then p :: q :: rest else q :: insertSorted p rest

/-- Sort an association list by key (Python's `sorted(kwargs.keys())` followed
by lookup; keyword-argument keys are distinct, so this is the same map). -/
def sortByKey : List (String × String) → List (String × String)
  | [] => []
  | p :: rest => insertSorted p (sortByKey rest)

/-- The concatenation `key + "\x00" + value + "\x00"` over the sorted fields,
exactly as built by the loop in `teanga_id_for_doc`. -/
def idText (kwargs : List (String × String)) : String :=
  String.join ((sortByKey kwargs).map (fun kv => kv.1 ++ "\x00" ++ kv.2 ++ "\x00"))

/-- The full encoded digest (the variable `code` in `teanga_id_for_doc`),
as its character sequence; a Python `str` and its character sequence carry
the same information (`code[:n]` is `take n`, `len` is `length`). -/
def idCodeL (kwargs : List (String × String)) : List Char :=
  b64encode (sha256 (utf8 (idText kwargs)))

/-- The `while code[:n] in ids and n < len(code): n += 1` loop of
`teanga_id_for_doc`, returning the final `n`; structural recursion on a fuel
bound (the guard `n < len(code)` bounds the iteration count, so any fuel
above `len(code) - n` reaches the loop exit). -/
def idLoopGo (code : List Char) (ids : List String) : Nat → Nat → Nat
  | 0, n => n
  | fuel + 1, n =>
      if String.mk (code.take n) ∈ ids ∧ n < code.length then
        idLoopGo code ids fuel (n + 1)
      else n

/-- Final value of `n` after the prefix-extension loop of `teanga_id_for_doc`. -/
def idLoop (code : List Char) (ids : List String) (n : Nat) : Nat :=
  idLoopGo code ids (code.length - n + 1) n

/-- Shallow embedding of `teanga_id_for_doc` (`teanga/utils.py`). `ids` is the
set of already-issued ids, `kwargs` the character-layer fields supplied at
document creation. -/
def teanga_id_for_doc (ids : List String) (kwargs : List (String × String)) :
    Except String String :=
  if kwargs.length = 0 then .error "No arguments given."
  else
    let code := idCodeL kwargs
    .ok (String.mk (code.take (idLoop code ids 4)))

set_option maxRecDepth 100000

example : String.mk (idCodeL [("text", "c")]) =
    "aE+WJqSQzqbL7DgzsV8uo9Y0ohTXTOWsUgo/SfKyzZo=" := by decide
example : teanga_id_for_doc [] [("text", "This is a document.")] = .ok "Kjco" := by decide

/-! ## Data model (`teanga/document.py`, `teanga/layer_desc.py`)

Python values supplied to the layer-setting API are strings, integers, or
(possibly nested) lists of these; tuples are converted to lists by
`validate_value`, so the embedding has a single list constructor. -/

/-- A raw Python value at the layer-setting boundary. -/
inductive PyVal where
  | int (n : Int)
  | str (s : String)
  | list (vs : List PyVal)

mutual

/-- Boolean equality on raw values (structural, so concrete goals reduce). -/
def PyVal.beq : PyVal → PyVal → Bool
  | .int n, .int m => n == m
  | .str s, .str t => s == t
  | .list l, .list r => PyVal.beqL l r
  | _, _ => false

/-- Boolean equality on lists of raw values. -/
def PyVal.beqL : List PyVal → List PyVal → Bool
  | [], [] => true
  | x :: xs, y :: ys => PyVal.beq x y && PyVal.beqL xs ys
  | _, _ => false

end

mutual

theorem PyVal.beq_eq : ∀ a b : PyVal, (PyVal.beq a b = true) ↔ a = b
  | .int _, .int _ => by simp [PyVal.beq]
  | .str _, .str _ => by simp [PyVal.beq]
  | .list l, .list r => by simp only [PyVal.beq]; rw [PyVal.beqL_eq l r]; simp
  | .int _, .str _ => by simp [PyVal.beq]
  | .int _, .list _ => by simp [PyVal.beq]
  | .str _, .int _ => by simp [PyVal.beq]
  | .str _, .list _ => by simp [PyVal.beq]
  | .list _, .int _ => by simp [PyVal.beq]
  | .list _, .str _ => by simp [PyVal.beq]

theorem PyVal.beqL_eq : ∀ l r : List PyVal, (PyVal.beqL l r = true) ↔ l = r
  | [], [] => by simp [PyVal.beqL]
  | x :: xs, y :: ys => by
      simp only [PyVal.beqL, Bool.and_eq_true]
      rw [PyVal.beq_eq x y, PyVal.beqL_eq xs ys]
      simp
  | [], _ :: _ => by simp [PyVal.beqL]
  | _ :: _, [] => by simp [PyVal.beqL]

end

instance : DecidableEq PyVal := fun a b => decidable_of_iff _ (PyVal.beq_eq a b)

/-- The `data` field of a layer descriptor: `"string"`, `"link"` or a closed
enumeration of permitted values. -/
inductive PyData where
  | string
  | link
  | enum (vals : List String)
deriving DecidableEq

/-- Shallow embedding of the `LayerDesc` named tuple
(`teanga/layer_desc.py`).  Every field defaults to `None`; `layer_type` is
kept as a raw string exactly as in the source (it is compared against string
literals).  The `meta` dictionary field is omitted: no claim touches it. -/
structure LayerDesc where
  layer_type : Option String := none
  base : Option String := none
  data : Option PyData := none
  link_types : Option (List String) := none
  target : Option String := none
  default : Option PyVal := none
deriving DecidableEq

/-- The stored value of one layer: the validated raw data each `Layer`
subclass of `teanga/document.py` holds (`CharacterLayer._text`,
`SeqLayer.seq`, `SpanLayer._data`, `DivLayer._data`, `ElementLayer._data`). -/
inductive LayerVal where
  | characters (text : String)
  | seq (vals : List PyVal)
  | span (entries : List PyVal)
  | div (entries : List PyVal)
  | element (entries : List PyVal)
deriving DecidableEq

/-- A document: its schema (`_meta`) and its materialized layers, both
insertion-ordered maps embedded as association lists (Python dicts preserve
insertion order).  The `corpus`/`id` back references are not modeled: all
claims concern detached documents (`corpus=None`), for which the final
`update_doc` propagation in `__setitem__` is skipped. -/
structure Document where
  meta : List (String × LayerDesc)
  layers : List (String × LayerVal)
deriving DecidableEq

/-- Ordered-dictionary lookup. -/
def alookup {α : Type} : List (String × α) → String → Option α
  | [], _ => none
  | (k, v) :: rest, key => if k = key then some v else alookup rest key

/-- Ordered-dictionary assignment: overwrite in place, append if absent. -/
def aset {α : Type} : List (String × α) → String → α → List (String × α)
  | [], key, v => [(key, v)]
  | (k, w) :: rest, key, v =>
      if k = key then (k, v) :: rest else (k, w) :: aset rest key v

/-- Python `isinstance(v, numbers.Integral)` on an embedded value. -/
def isIntegral : PyVal → Bool
  | .int _ => true
  | _ => false

/-- Python `isinstance(v, str)` on an embedded value. -/
def isString : PyVal → Bool
  | .str _ => true
  | _ => false

/-- Python `len` of a stored layer (each `Layer.__len__`). -/
def layerLen : LayerVal → Nat
  | .characters t => t.length
  | .seq l => l.length
  | .span l => l.length
  | .div l => l.length
  | .element l => l.length

/-- Python `len` of a raw value (used for `len(default)`); `len` of an
integer is a `TypeError`. -/
def pyLen : PyVal → Except String Nat
  | .list l => .ok l.length
  | .str s => .ok s.length
  | .int _ => .error "TypeError: object of type int has no len"

/-- Python subscript `v[i]` for a non-negative literal index: lists and
strings are subscriptable, integers are not. -/
def pySub (v : PyVal) (i : Nat) : Except String PyVal :=
  match v with
  | .list l =>
      match l.get? i with
      | some x => .ok x
      | none => .error "IndexError"
  | .str s =>
      match s.toList.get? i with
      | some c => .ok (.str (String.mk [c]))
      | none => .error "IndexError"
  | .int _ => .error "TypeError: int is not subscriptable"

/-- The loop `for i in range(index_length): if not isinstance(value[i],
numbers.Integral): raise` of `validate_value`, including the `IndexError` a
too-short list produces. -/
def checkIdx : List PyVal → Nat → Except String Unit
  | _, 0 => .ok ()
  | [], _ + 1 => .error "IndexError"
  | x :: rest, k + 1 =>
      if isIntegral x then checkIdx rest k else .error "Bad value"

/-- Shallow embedding of `validate_value` (`teanga/document.py`, lines
350-391).  `index_length` is 0 for seq, 1 for div/element, 2 for span
entries.  Tuples arrive already converted to lists. -/
def validate_value (value : PyVal) (index_length : Nat) : Except String PyVal :=
  match value with
  | .list l => do
      checkIdx l index_length
      match l with
      | [x] =>
          if isString x || isIntegral x then .ok x
          else .error "Bad value"
      | _ =>
          if l.length = index_length then .ok (.list l)
          else if l.length = index_length + 1 then do
            let x ← pySub (.list l) index_length
            if isString x || isIntegral x then .ok (.list l)
            else .error "Bad value"
          else if l.length = index_length + 2 then do
            let x ← pySub (.list l) index_length
            let y ← pySub (.list l) (index_length + 1)
            if isIntegral x && isString y then .ok (.list l)
            else .error "Bad value"
          else .error "Bad value"
  | v =>
      if 2 ≤ index_length then .error "Bad value"
      else if index_length = 1 ∧ ¬ (isIntegral v = true) then .error "Bad value"
      else if index_length = 0 ∧ ¬ (isString v = true) ∧ ¬ (isIntegral v = true) then
        .error "Bad value"
      else .ok v

/-- Python `str(value)` as used by the characters branch of `__setitem__`;
claims only exercise it on strings and integers (the list rendering is
abbreviated, Python would use element reprs). -/
def pyStr : PyVal → String
  | .str s => s
  | .int n => toString n
  | .list l => "[" ++ String.intercalate ", " (l.map fun v =>
      match v with
      | .str s => s
      | .int n => toString n
      | .list _ => "...") ++ "]"

/-- The constructor check of `SpanLayer.__init__` (its `for span in
self._data` loop): each entry must have integral components at positions 0
and 1. -/
def spanInitCheck : List PyVal → Except String Unit
  | [] => .ok ()
  | e :: rest => do
      let x ← pySub e 0
      if ¬ (isIntegral x = true) then .error "Bad span data" else do
      let y ← pySub e 1
      if ¬ (isIntegral y = true) then .error "Bad span data" else
      spanInitCheck rest

/-- The constructor check of `DivLayer.__init__`: an entry is either itself
integral or its first element is (the second test only runs when the first
fails, as Python's `and` short-circuits). -/
def divInitCheck : List PyVal → Except String Unit
  | [] => .ok ()
  | e :: rest =>
      if isIntegral e then divInitCheck rest
      else do
        let x ← pySub e 0
        if ¬ (isIntegral x = true) then .error "Bad span data" else
        divInitCheck rest

/-- The constructor check of `ElementLayer.__init__`: the first element of
each entry must be integral (a bare integer entry is a `TypeError`, since
`span[0]` is evaluated unconditionally). -/
def elementInitCheck : List PyVal → Except String Unit
  | [] => .ok ()
  | e :: rest => do
      let x ← pySub e 0
      if ¬ (isIntegral x = true) then .error "Bad span data" else
      elementInitCheck rest

/-- Length of the base layer as computed by the seq branch of
`__setitem__`: the materialized base layer's length, else the Python `len`
of the base's default value. -/
def baseLayerLen (doc : Document) (b : String) : Except String Nat :=
  match alookup doc.layers b with
  | some lv => .ok (layerLen lv)
  | none =>
      match alookup doc.meta b with
      | some bm =>
          match bm.default with
          | some d => pyLen d
          | none => .error "Cannot add layer because sublayer does not exist"
      | none => .error "KeyError"

/-- Shallow embedding of `Document.__setitem__` (`teanga/document.py`, lines
39-129) for a raw (string or list) value.  The source's `value` parameter is
`Union[str, list, 'Layer']` and the function dispatches on `isinstance`; the
embedding splits that union into two entry points: this one for raw values
and `setItemLayer` below for the `isinstance(value, Layer)` branch (lines
73-75).  The `None`-to-default substitution (lines 71-72) is not modeled
(claims supply concrete values); the trailing corpus synchronization is
skipped for detached documents. -/
def setItem (doc : Document) (name : String) (value : PyVal) :
    Except String Document :=
  match alookup doc.meta name with
  | none => .error "Layer with name does not exist"
  | some m =>
    match m.layer_type with
    | none => .error "Layer has no layer type"
    | some lt =>
      if lt ∉ ["characters", "seq", "span", "div", "element"] then
        .error "Invalid layer type"
      else if lt = "characters" then
        .ok { doc with layers := aset doc.layers name (.characters (pyStr value)) }
      else
        match m.base with
        | none => .error "Non-character layer must have a base"
        | some b =>
          match alookup doc.meta b with
          | none => .error "Layer refers to non-existent base layer"
          | some bm =>
            if alookup doc.layers b = none ∧ bm.default = none then
              .error "Cannot add layer because sublayer does not exist"
            else if lt = "seq" then
              match value with
              | .list vs => do
                  let vals ← vs.mapM (validate_value · 0)
                  let blen ← baseLayerLen doc b
                  if vals.length ≠ blen then
                    .error "Value of layer must have the same length as base"
                  else
                    .ok { doc with layers := aset doc.layers name (.seq vals) }
              | _ => .error "Value of layer must be a list"
            else if lt = "span" then
              match value with
              | .list vs => do
                  let vals ← vs.mapM (validate_value · 2)
                  spanInitCheck vals
                  .ok { doc with layers := aset doc.layers name (.span vals) }
              | _ => .error "Value of layer must be a list"
            else if lt = "div" then
              match value with
              | .list vs => do
                  let vals ← vs.mapM (validate_value · 1)
                  divInitCheck vals
                  .ok { doc with layers := aset doc.layers name (.div vals) }
              | _ => .error "Value of layer must be a list"
            else
              match value with
              | .list vs => do
                  let vals ← vs.mapM (validate_value · 1)
                  elementInitCheck vals
                  .ok { doc with layers := aset doc.layers name (.element vals) }
              | _ => .error "Value of layer must be a list"

/-- The `Layer`-object branch of `Document.__setitem__`
(`teanga/document.py`, lines 73-75): after the schema-existence check (line
69), a value that is already a `Layer` instance is stored directly --
`self.layers[name] = value; return value` -- with no length, shape or type
validation whatsoever.  This path is exercised by `Document.copy` and by
assigning a layer object taken from another document. -/
def setItemLayer (doc : Document) (name : String) (lv : LayerVal) :
    Except String Document :=
  match alookup doc.meta name with
  | none => .error "Layer with name does not exist"
  | some _ => .ok { doc with layers := aset doc.layers name lv }

/-! ## Index resolver (`Layer.indexes`, `Document.text_for_layer`) -/

/-- The ranges `[(0,1), (1,2), ..., (n-1,n)]` every layer kind returns when
asked for its indexes relative to itself. -/
def unitRanges (n : Nat) : List (Int × Int) :=
  (List.range n).map fun i => ((i : Int), (i : Int) + 1)

/-- Use of a raw value as an integer (a Python `TypeError` otherwise). -/
def asInt : PyVal → Except String Int
  | .int n => .ok n
  | _ => .error "TypeError: not an integer"

/-- Python list indexing `l[i]` with its negative-index wrap-around:
`l[-k]` counts from the end, and anything outside `[-len, len)` is an
`IndexError`. -/
def pyGet {α : Type} (l : List α) (i : Int) : Except String α :=
  if 0 ≤ i then
    match l.get? i.toNat with
    | some x => .ok x
    | none => .error "IndexError"
  else
    let j := (l.length : Int) + i
    if 0 ≤ j then
      match l.get? j.toNat with
      | some x => .ok x
      | none => .error "IndexError"
    else .error "IndexError"

/-- The helper `_1st_idx` of `teanga/document.py`: a bare integer stands for
itself, otherwise the entry's first element is taken (the result is then used
as an index, so a non-integer first element is a `TypeError` at that use;
the error is modeled at extraction). -/
def fstIdx (d : PyVal) : Except String Int :=
  if isIntegral d then asInt d
  else do
    let x ← pySub d 0
    asInt x

/-- `itertools.pairwise` of a list of integers. -/
def pairsOf (l : List Int) : List (Int × Int) := l.zip l.tail

/-- An entry of a div layer used directly as a value in the
base-relative case `pairwise(chain((s for s in self._data), [len(base)]))`.
The Python code passes the raw entry through; for the well-formed documents
the claims concern, entries are bare integers.  An entry carrying a data
payload would make Python build ill-typed range pairs (pairs of lists); that
degenerate shape is outside this embedding's `(Int, Int)` result type and is
mapped to an error. -/
def divEntryInt : PyVal → Except String Int
  | .int n => .ok n
  | _ => .error "div entry with data payload: ill-typed range in source"

/-- Python `len(self._doc.layers[name])`, a `KeyError` when the layer is not
materialized. -/
def layersLen (doc : Document) (name : String) : Except String Nat :=
  match alookup doc.layers name with
  | some lv => .ok (layerLen lv)
  | none => .error "KeyError"

/-- Shallow embedding of the `indexes` methods of the five layer classes
(`teanga/document.py`): `CharacterLayer.indexes`, `SeqLayer.indexes`,
`SpanLayer.indexes`, `DivLayer.indexes`, `ElementLayer.indexes`.  The
recursion follows `base` pointers through `self._doc.layers[self._meta.base]`;
`fuel` bounds the recursion depth (any fuel at least the layer-dependency
depth computes the same result, see `indexesF_fuel_mono`-style usage at
concrete inputs). -/
def indexesF : Nat → Document → String → String → Except String (List (Int × Int))
  | 0, _, _, _ => .error "recursion limit"
  | fuel + 1, doc, name, target =>
    match alookup doc.layers name with
    | none => .error "KeyError"
    | some lv =>
      match alookup doc.meta name with
      | none => .error "KeyError"
      | some m =>
        match lv with
        | .characters text =>
            if target = name then .ok (unitRanges text.length)
            else .error "Indexing on layer that is not a sublayer."
        | .seq l =>
            if target = name then .ok (unitRanges l.length)
            else
              match m.base with
              | some b => indexesF fuel doc b target
              | none => .error "KeyError"
        | .span entries =>
            if target = name then .ok (unitRanges entries.length)
            else if m.base = some target then
              entries.mapM fun e => do
                let s0 ← pySub e 0
                let s1 ← pySub e 1
                pure (← asInt s0, ← asInt s1)
            else
              match m.base with
              | none => .error "KeyError"
              | some b => do
                  let sub ← indexesF fuel doc b target
                  entries.mapM fun e => do
                    let s0 ← asInt (← pySub e 0)
                    let s1 ← asInt (← pySub e 1)
                    let p ← pyGet sub s0
                    let q ← pyGet sub (s1 - 1)
                    pure (p.1, q.2)
        | .div entries =>
            if target = name then .ok (unitRanges entries.length)
            else if m.base = some target then do
              let starts ← entries.mapM divEntryInt
              let blen ← layersLen doc target
              pure (pairsOf (starts ++ [(blen : Int)]))
            else
              match m.base with
              | none => .error "KeyError"
              | some b => do
                  let sub ← indexesF fuel doc b target
                  let starts ← entries.mapM fun e => do
                    let i ← asInt e
                    let p ← pyGet sub i
                    pure p.1
                  let tlen ← layersLen doc target
                  pure (pairsOf (starts ++ [(tlen : Int)]))
        | .element entries =>
            if target = name then .ok (unitRanges entries.length)
            else if m.base = some target then
              entries.mapM fun e => do
                let i ← fstIdx e
                pure (i, i + 1)
            else
              match m.base with
              | none => .error "KeyError"
              | some b => do
                  let sub ← indexesF fuel doc b target
                  entries.mapM fun e => do
                    let i ← fstIdx e
                    pyGet sub i

/-- Python string slicing `s[a:b]`: negative bounds count from the end and
everything is clamped to the string, never raising. -/
def pySlice (s : String) (a b : Int) : String :=
  let n := s.length
  let norm : Int → Nat := fun i =>
    if i < 0 then ((n : Int) + i).toNat.min n else i.toNat.min n
  let lo := norm a
  let hi := norm b
  String.mk ((s.toList.drop lo).take (hi - lo))

/-- The `while self._meta[text_layer].layer_type != "characters"` walk of
`text_for_layer`, following `base` pointers to the root character layer. -/
def rootTextLayer : Nat → Document → String → Except String String
  | 0, _, _ => .error "recursion limit"
  | fuel + 1, doc, name =>
    match alookup doc.meta name with
    | none => .error "KeyError"
    | some m =>
        if m.layer_type = some "characters" then .ok name
        else
          match m.base with
          | some b => rootTextLayer fuel doc b
          | none => .error "KeyError"

/-- Shallow embedding of `Document.text_for_layer` (`teanga/document.py`,
lines 214-251).  For a characters layer Python returns the text string
itself, a sequence of its characters; the embedding returns that character
sequence as one-character strings.  For any other layer the result is the
list of slices of the root character layer's text at the layer's resolved
indexes. -/
def text_for_layer (fuel : Nat) (doc : Document) (name : String) :
    Except String (List String) :=
  match alookup doc.meta name with
  | none => .error "Layer with name does not exist"
  | some m =>
    if m.layer_type = some "characters" then
      match alookup doc.layers name with
      | some (.characters t) => .ok (t.toList.map fun c => String.mk [c])
      | some _ => .error "TypeError"
      | none => .error "KeyError"
    else do
      let tl ← rootTextLayer fuel doc name
      let idxs ← indexesF fuel doc name tl
      match alookup doc.layers tl with
      | some (.characters t) => .ok (idxs.map fun p => pySlice t p.1 p.2)
      | some _ => .error "TypeError"
      | none => .error "KeyError"

/-! ## Schema definition (`Corpus.add_layer_meta`, `teanga/corpus.py`,
lines 1008-1055, non-pyo3 path) -/

/-- Shallow embedding of `Corpus.add_layer_meta`: the corpus-level schema map
is threaded explicitly.  Note the source stores
`LayerDesc(layer_type, base, data, link_types, target, default, meta)`
verbatim: no field is defaulted from another. -/
def add_layer_meta (meta : List (String × LayerDesc)) (name : Option String)
    (layer_type : String) (base : Option String) (data : Option PyData)
    (link_types : Option (List String)) (target : Option String)
    (default : Option PyVal) : Except String (List (String × LayerDesc)) :=
  match name with
  | none => .error "Name of the layer is not specified."
  | some nm =>
    if alookup meta nm ≠ none then .error "Layer with name already exists."
    else if layer_type ∉ ["characters", "span", "seq", "div", "element"] then
      .error "Type of the layer is not valid."
    else if layer_type = "characters" ∧ base ≠ none ∧ base ≠ some "" then
      .error "Layer of type characters cannot be based on another layer."
    else if layer_type = "characters" then
      .ok (aset meta nm { layer_type := some "characters" })
    else
      match base with
      | none => .error "Layer must be based on another layer."
      | some _ =>
          .ok (aset meta nm
            { layer_type := some layer_type, base := base, data := data,
              link_types := link_types, target := target, default := default })

/-! ## Query evaluator (`ImmutableCorpus.search` / `_doc_matches`,
`teanga/corpus.py`, lines 570-600) -/

/-- A query condition: a literal string, a list of strings, or a nested
condition map (operator objects and the `$and`/`$or`/`$not` combinators). -/
inductive Cond where
  | str (s : String)
  | strs (ss : List String)
  | cmap (m : List (String × Cond))

/-- Shallow embedding of `ImmutableCorpus._doc_matches`.  The branch for a
schema layer name executes `doc[key]` (a `KeyError` when the layer is not
materialized) and then returns the *generator object* produced by
`Layer.matches` without consuming it; a generator object is truthy in every
boolean context `_doc_matches` feeds (`all`, `any`, `if not ...`), whether or
not it would yield a match, so that branch is embedded as `true`.  `fuel`
bounds the recursion through nested condition maps. -/
def docMatchesF : Nat → Document → String → Cond → Except String Bool
  | 0, _, _, _ => .error "recursion limit"
  | fuel + 1, doc, key, value =>
    if key = "$exists" then
      match value with
      | .str s => .ok (decide (alookup doc.layers s ≠ none))
      | _ => .ok false
    else if key = "$and" then
      match value with
      | .cmap m => m.allM fun kv => docMatchesF fuel doc kv.1 kv.2
      | _ => .error "AttributeError: items"
    else if key = "$or" then
      match value with
      | .cmap m => m.anyM fun kv => docMatchesF fuel doc kv.1 kv.2
      | _ => .error "AttributeError: items"
    else if key = "$not" then
      match value with
      | .cmap m => m.allM fun kv => docMatchesF fuel doc kv.1 kv.2
      | _ => .error "Invalid $not query."
    else if alookup doc.meta key ≠ none then
      match alookup doc.layers key with
      | none => .error "KeyError"
      | some _ => .ok true
    else .error ("Invalid key: " ++ key)

/-- One document's evaluation inside the query branch of
`ImmutableCorpus.search`: the document matches iff `_doc_matches` is truthy
for every key of the query map, with Python's in-order short-circuit at the
first falsy condition (an exception in an evaluated condition propagates). -/
def evalQuery (fuel : Nat) (doc : Document) (query : List (String × Cond)) :
    Except String Bool :=
  query.allM fun kv => docMatchesF fuel doc kv.1 kv.2

/-! ## Shared helper lemmas -/

theorem except_bind_ok {α β : Type} (x : α) (g : α → Except String β) :
    (Except.ok x >>= g) = g x := rfl

theorem except_bind_err {α β : Type} (msg : String) (g : α → Except String β) :
    ((Except.error msg : Except String α) >>= g) = .error msg := rfl

theorem except_pure {α : Type} (x : α) : (pure x : Except String α) = .ok x := rfl

theorem alookup_aset {α : Type} (m : List (String × α)) (k : String) (v : α) :
    alookup (aset m k v) k = some v := by
  induction m with
  | nil => simp [aset, alookup]
  | cons p rest ih =>
      obtain ⟨a, b⟩ := p
      by_cases h : a = k
      · simp [aset, alookup, h]
      · simp [aset, alookup, h, ih]

theorem mapM_ok_of_forall₂ {α β : Type} (f : α → Except String β)
    {l : List α} {r : List β} (h : List.Forall₂ (fun a b => f a = .ok b) l r) :
    l.mapM f = .ok r := by
  induction h with
  | nil => rw [List.mapM_nil, except_pure]
  | cons h₁ _ ih =>
      rw [List.mapM_cons, h₁, except_bind_ok, ih, except_bind_ok, except_pure]

theorem mapM_ok_length {α β : Type} (f : α → Except String β) :
    ∀ {l : List α} {r : List β}, l.mapM f = .ok r → r.length = l.length := by
  intro l
  induction l with
  | nil => intro r h; rw [List.mapM_nil, except_pure] at h; cases h; rfl
  | cons a as ih =>
      intro r h
      rw [List.mapM_cons] at h
      cases hfa : f a with
      | error m => rw [hfa, except_bind_err] at h; exact absurd h (by simp)
      | ok b =>
          rw [hfa, except_bind_ok] at h
          cases hrest : as.mapM f with
          | error m => rw [hrest, except_bind_err] at h; exact absurd h (by simp)
          | ok bs =>
              rw [hrest, except_bind_ok, except_pure] at h
              cases h
              simp [ih hrest]

theorem pyGet_ok {α : Type} (l : List α) (i : Int) (h0 : 0 ≤ i)
    {x : α} (hx : l.get? i.toNat = some x) : pyGet l i = .ok x := by
  unfold pyGet
  rw [if_pos h0, hx]

theorem get?_getD {α : Type} (l : List α) (n : Nat) (d : α) (h : n < l.length) :
    l.get? n = some (l.getD n d) := by
  rw [List.get?_eq_getElem?, List.getD_eq_getElem?_getD, List.getElem?_eq_getElem h]
  simp

/-! ## C1: index round-trip through `tokens` and `pos` -/

/-- The schema `text(Characters) <- tokens(Span) <- pos(Seq)` of C1. -/
def c1meta : List (String × LayerDesc) :=
  [("text", { layer_type := some "characters" }),
   ("tokens", { layer_type := some "span", base := some "text" }),
   ("pos", { layer_type := some "seq", base := some "tokens" })]

example : (do
    let m1 ← add_layer_meta [] (some "text") "characters" none none none none none
    let m2 ← add_layer_meta m1 (some "tokens") "span" (some "text") none none none none
    add_layer_meta m2 (some "pos") "seq" (some "tokens") none none none none)
    = .ok c1meta := by decide

/-- The document of C1, constructed through `__setitem__` with text
`"This is a document."`, tokens `[[0,4],[5,7],[8,9],[10,18]]` and a
4-element pos sequence. -/
def c1doc : Except String Document := do
  let d1 ← setItem { meta := c1meta, layers := [] } "text" (.str "This is a document.")
  let d2 ← setItem d1 "tokens"
    (.list [.list [.int 0, .int 4], .list [.int 5, .int 7],
            .list [.int 8, .int 9], .list [.int 10, .int 18]])
  setItem d2 "pos" (.list [.str "DT", .str "VBZ", .str "DT", .str "NN"])

/-- C1: for the schema `text(Characters) <- tokens(Span) <- pos(Seq)` with
text `"This is a document."` and tokens `[[0,4],[5,7],[8,9],[10,18]]`,
`indexes("pos","text")` is exactly `[(0,4),(5,7),(8,9),(10,18)]` and
`text_for_layer("pos")` yields exactly `["This","is","a","document"]`. -/
theorem C1_index_round_trip :
    (c1doc.bind fun d => indexesF 10 d "pos" "text") =
      .ok [(0, 4), (5, 7), (8, 9), (10, 18)] ∧
    (c1doc.bind fun d => text_for_layer 10 d "pos") =
      .ok ["This", "is", "a", "document"] := by decide

/-! ## C2: Element/Div composition to a strict ancestor -/

/-- Schema `text(Characters) <- words(Span) <- sents(Div)` for the C2
counterexample. -/
def c2meta : List (String × LayerDesc) :=
  [("text", { layer_type := some "characters" }),
   ("words", { layer_type := some "span", base := some "text" }),
   ("sents", { layer_type := some "div", base := some "words" })]

/-- A document whose div layer `sents` (entries `[0, 1]`) sits above the span
layer `words` (`[[0,4],[5,7]]`, note the gap at 4) over a 19-character text. -/
def c2doc : Except String Document := do
  let d1 ← setItem { meta := c2meta, layers := [] } "text" (.str "This is a document.")
  let d2 ← setItem d1 "words" (.list [.list [.int 0, .int 4], .list [.int 5, .int 7]])
  setItem d2 "sents" (.list [.int 0, .int 1])

/-- C2 counterexample: `words.indexes("text") = [(0,4),(5,7)]`, so the claim
predicts `sents.indexes("text") = [(sub[0].start, sub[0].end), (sub[1].start,
sub[1].end)] = [(0,4),(5,7)]`; the code instead pairs consecutive entry
*starts* and closes with the target layer's length, producing
`[(0,5),(5,19)]`. -/
theorem C2_counterexample :
    (c2doc.bind fun d => indexesF 10 d "sents" "text") = .ok [(0, 5), (5, 19)] ∧
    (c2doc.bind fun d => indexesF 10 d "sents" "text") ≠ .ok [(0, 4), (5, 7)] := by
  decide

/-- C2 (amended): resolving to a strict ancestor `target` (neither the layer
itself nor its immediate base), with `sub` the base layer's index list
relative to `target`: an Element layer maps each entry with start index `a`
to the composed range `(sub[a].start, sub[a].end)` exactly as the claim
states; a Div layer instead maps its entries `a_0, ..., a_k` to
`(sub[a_i].start, sub[a_(i+1)].start)` for `i < k` and the last entry to
`(sub[a_k].start, len(target layer))`. -/
theorem C2_element_div_composition :
    (∀ (fuel : Nat) (doc : Document) (name target b : String) (m : LayerDesc)
       (entries : List PyVal) (starts : List Int) (sub : List (Int × Int)),
       alookup doc.layers name = some (.element entries) →
       alookup doc.meta name = some m →
       m.base = some b →
       target ≠ name →
       b ≠ target →
       indexesF fuel doc b target = .ok sub →
       List.Forall₂ (fun e a => fstIdx e = .ok a ∧ 0 ≤ a ∧ a.toNat < sub.length)
         entries starts →
       indexesF (fuel + 1) doc name target =
         .ok (starts.map fun a => sub.getD a.toNat (0, 0))) ∧
    (∀ (fuel : Nat) (doc : Document) (name target b : String) (m : LayerDesc)
       (starts : List Int) (sub : List (Int × Int)) (tlen : Nat),
       alookup doc.layers name = some (.div (starts.map PyVal.int)) →
       alookup doc.meta name = some m →
       m.base = some b →
       target ≠ name →
       b ≠ target →
       indexesF fuel doc b target = .ok sub →
       layersLen doc target = .ok tlen →
       (∀ a ∈ starts, 0 ≤ a ∧ a.toNat < sub.length) →
       indexesF (fuel + 1) doc name target =
         .ok (pairsOf ((starts.map fun a => (sub.getD a.toNat (0, 0)).1) ++
                       [(tlen : Int)]))) := by
  constructor
  · intro fuel doc name target b m entries starts sub h1 h2 h3 h4 h5 h6 h7
    simp only [indexesF, h1, h2, h3, h6, except_bind_ok, Option.some.injEq, h4, h5,
      ite_false, if_false]
    refine mapM_ok_of_forall₂ _ ?_
    rw [List.forall₂_map_right_iff]
    refine h7.imp ?_
    rintro e a ⟨he, ha0, halt⟩
    rw [he, except_bind_ok]
    exact pyGet_ok _ _ ha0 (get?_getD _ _ _ halt)
  · intro fuel doc name target b m starts sub tlen h1 h2 h3 h4 h5 h6 hlen h7
    simp only [indexesF, h1, h2, h3, h6, except_bind_ok, Option.some.injEq, h4, h5,
      ite_false, if_false]
    have hm : (starts.map PyVal.int).mapM (fun e => do
          let i ← asInt e
          let p ← pyGet sub i
          pure p.1) = Except.ok (starts.map fun a => (sub.getD a.toNat (0, 0)).1) := by
      refine mapM_ok_of_forall₂ _ ?_
      rw [List.forall₂_map_left_iff, List.forall₂_map_right_iff, List.forall₂_same]
      intro a ha
      obtain ⟨ha0, halt⟩ := h7 a ha
      rw [show asInt (PyVal.int a) = .ok a from rfl, except_bind_ok,
        pyGet_ok _ _ ha0 (get?_getD _ _ (0, 0) halt), except_bind_ok, except_pure]
    rw [hm, except_bind_ok, hlen, except_bind_ok, except_pure]

/-- Schema `text(Characters) <- words(Span) <- alts(Element)` for the C2
witness. -/
def c2emeta : List (String × LayerDesc) :=
  [("text", { layer_type := some "characters" }),
   ("words", { layer_type := some "span", base := some "text" }),
   ("alts", { layer_type := some "element", base := some "words" })]

/-- An element layer `alts = [[1, "x"]]` above `words = [[0,4],[5,7]]`. -/
def c2edoc : Document :=
  { meta := c2emeta,
    layers := [("text", .characters "This is a document."),
               ("words", .span [.list [.int 0, .int 4], .list [.int 5, .int 7]]),
               ("alts", .element [.list [.int 1, .str "x"]])] }

example : (do
    let d1 ← setItem { meta := c2emeta, layers := [] } "text" (.str "This is a document.")
    let d2 ← setItem d1 "words" (.list [.list [.int 0, .int 4], .list [.int 5, .int 7]])
    setItem d2 "alts" (.list [.list [.int 1, .str "x"]])) = .ok c2edoc := by decide

/-- The document of the C2 counterexample as a concrete value. -/
def c2ddoc : Document :=
  { meta := c2meta,
    layers := [("text", .characters "This is a document."),
               ("words", .span [.list [.int 0, .int 4], .list [.int 5, .int 7]]),
               ("sents", .div [.int 0, .int 1])] }

example : c2doc = .ok c2ddoc := by decide

theorem C2_element_div_composition_witness :
    indexesF 6 c2edoc "alts" "text" = .ok [(5, 7)] ∧
    indexesF 6 c2ddoc "sents" "text" = .ok [(0, 5), (5, 19)] := by
  constructor
  · exact C2_element_div_composition.1 5 c2edoc "alts" "text" "words"
      { layer_type := some "element", base := some "words" }
      [.list [.int 1, .str "x"]] [1] [(0, 4), (5, 7)]
      (by decide) (by decide) (by decide) (by decide) (by decide) (by decide)
      (List.Forall₂.cons (by decide) List.Forall₂.nil)
  · exact C2_element_div_composition.2 5 c2ddoc "sents" "text" "words"
      { layer_type := some "div", base := some "words" }
      [0, 1] [(0, 4), (5, 7)] 19
      (by decide) (by decide) (by decide) (by decide) (by decide) (by decide)
      (by decide) (by decide)

/-! ## C3: seq-layer length validation -/

/-- Schema `text(Characters) <- pos(Seq)` for C3. -/
def c3meta : List (String × LayerDesc) :=
  [("text", { layer_type := some "characters" }),
   ("pos", { layer_type := some "seq", base := some "text" })]

/-- A document with a 2-character text layer. -/
def c3doc : Document :=
  { meta := c3meta, layers := [("text", .characters "ab")] }

/-- The invalid document of the C3 counterexample: a 1-element seq layer
over the 2-character base. -/
def c3docBad : Document :=
  { meta := c3meta,
    layers := [("text", .characters "ab"), ("pos", .seq [.str "A"])] }

/-- C3 counterexample: `__setitem__` accepts a pre-built `Layer` object
(its `value` parameter is `Union[str, list, 'Layer']`) and stores it with no
validation at all (document.py lines 73-75), so a set call whose seq value
has length 1 over a base of length 2 *succeeds*, and the resulting document
violates `len(SeqLayer) == len(base layer)` -- refuting both the "always
fails" universal and the post-construction invariant. -/
theorem C3_counterexample :
    setItemLayer c3doc "pos" (.seq [.str "A"]) = .ok c3docBad ∧
    (alookup c3docBad.layers "pos").map layerLen = some 1 ∧
    (alookup c3docBad.layers "text").map layerLen = some 2 ∧
    baseLayerLen c3docBad "text" = .ok 2 := by decide

/-- C3 (amended): for *raw list values*, setting a Seq layer whose length
differs from the base layer's length (the materialized base layer's length,
or the Python `len` of the base's default when the base is not materialized)
always fails, and in the functional embedding a failed `setItem` produces no
updated document (the source raises before any assignment to `self.layers`,
so the layer map is untouched); on success the stored seq layer's length
equals the base layer's length and the only change to the layer map is the
new entry.  But `__setitem__` also accepts an already-constructed `Layer`
object and stores it unvalidated (third conjunct), so the length invariant
is not guaranteed for every successfully constructed document. -/
theorem C3_seq_length_invariant :
    (∀ (doc : Document) (name : String) (m : LayerDesc) (b : String)
       (vs : List PyVal) (blen : Nat),
       alookup doc.meta name = some m →
       m.layer_type = some "seq" →
       m.base = some b →
       baseLayerLen doc b = .ok blen →
       vs.length ≠ blen →
       (setItem doc name (.list vs)).isOk = false) ∧
    (∀ (doc doc' : Document) (name : String) (m : LayerDesc) (b : String)
       (vs : List PyVal),
       alookup doc.meta name = some m →
       m.layer_type = some "seq" →
       m.base = some b →
       setItem doc name (.list vs) = .ok doc' →
       ∃ vals blen, doc'.meta = doc.meta ∧
         doc'.layers = aset doc.layers name (.seq vals) ∧
         baseLayerLen doc b = .ok blen ∧ vals.length = blen) ∧
    (∀ (doc : Document) (name : String) (m : LayerDesc) (lv : LayerVal),
       alookup doc.meta name = some m →
       setItemLayer doc name lv =
         .ok { doc with layers := (aset doc.layers name lv) }) := by
  refine ⟨?_, ?_, ?_⟩
  · intro doc name m b vs blen h1 h2 h3 h4 h5
    simp only [setItem, h1, h2, h3]
    rw [if_neg (by decide : ¬ ("seq" ∉ ["characters", "seq", "span", "div", "element"])),
        if_neg (by decide : ¬ ("seq" = "characters"))]
    split
    · rfl
    · rename_i bm hmb
      by_cases hg : alookup doc.layers b = none ∧ bm.default = none
      · rw [if_pos hg]; rfl
      · rw [if_neg hg, if_pos trivial]
        cases hmm : vs.mapM (validate_value · 0) with
        | error msg => rw [except_bind_err]; rfl
        | ok vals =>
            rw [except_bind_ok, h4, except_bind_ok,
              if_pos (show vals.length ≠ blen by
                rw [mapM_ok_length _ hmm]; exact h5)]
            rfl
  · intro doc doc' name m b vs h1 h2 h3 hok
    simp only [setItem, h1, h2, h3] at hok
    rw [if_neg (by decide : ¬ ("seq" ∉ ["characters", "seq", "span", "div", "element"])),
        if_neg (by decide : ¬ ("seq" = "characters"))] at hok
    split at hok
    · exact absurd hok (by simp)
    · rename_i bm hmb
      by_cases hg : alookup doc.layers b = none ∧ bm.default = none
      · rw [if_pos hg] at hok; exact absurd hok (by simp)
      · rw [if_neg hg, if_pos trivial] at hok
        cases hmm : vs.mapM (validate_value · 0) with
        | error msg =>
            rw [hmm, except_bind_err] at hok; exact absurd hok (by simp)
        | ok vals =>
            rw [hmm, except_bind_ok] at hok
            cases hbl : baseLayerLen doc b with
            | error msg =>
                rw [hbl, except_bind_err] at hok; exact absurd hok (by simp)
            | ok blen =>
                rw [hbl, except_bind_ok] at hok
                by_cases hne : vals.length ≠ blen
                · rw [if_pos hne] at hok; exact absurd hok (by simp)
                · rw [if_neg hne] at hok
                  push_neg at hne
                  cases hok
                  exact ⟨vals, blen, rfl, rfl, rfl, hne⟩
  · intro doc name m lv h
    simp only [setItemLayer, h]

/-- The result of setting `pos` to a well-sized 2-element sequence. -/
def c3doc2 : Document :=
  { meta := c3meta,
    layers := [("text", .characters "ab"), ("pos", .seq [.str "A", .str "B"])] }

theorem C3_seq_length_invariant_witness :
    (setItem c3doc "pos" (.list [.str "A"])).isOk = false ∧
    (∃ vals blen, c3doc2.meta = c3doc.meta ∧
       c3doc2.layers = aset c3doc.layers "pos" (.seq vals) ∧
       baseLayerLen c3doc "text" = .ok blen ∧ vals.length = blen) ∧
    setItemLayer c3doc "pos" (.seq [.str "A"]) =
      .ok { c3doc with layers := (aset c3doc.layers "pos" (.seq [.str "A"])) } :=
  ⟨C3_seq_length_invariant.1 c3doc "pos"
      { layer_type := some "seq", base := some "text" } "text" [.str "A"] 2
      (by decide) (by decide) (by decide) (by decide) (by decide),
   C3_seq_length_invariant.2.1 c3doc c3doc2 "pos"
      { layer_type := some "seq", base := some "text" } "text" [.str "A", .str "B"]
      (by decide) (by decide) (by decide) (by decide),
   C3_seq_length_invariant.2.2 c3doc "pos"
      { layer_type := some "seq", base := some "text" } (.seq [.str "A"])
      (by decide)⟩

/-! ## C4: span-entry bounds are not validated at set time -/

/-- Schema `text(Characters) <- words(Span)` for C4. -/
def c4meta : List (String × LayerDesc) :=
  [("text", { layer_type := some "characters" }),
   ("words", { layer_type := some "span", base := some "text" })]

/-- A document with a 19-character text layer. -/
def c4doc : Document :=
  { meta := c4meta, layers := [("text", .characters "This is a document.")] }

/-- C4 counterexample: the claim says a span entry with a negative component,
a bound beyond the base's 19 elements, or `start > end` fails at set time.
The set call with `[[-3, 100], [5, 2]]` (negative start, end past the base
length, and start greater than end) succeeds and stores the layer. -/
theorem C4_counterexample :
    setItem c4doc "words" (.list [.list [.int (-3), .int 100], .list [.int 5, .int 2]]) =
      .ok { meta := c4meta,
            layers := [("text", .characters "This is a document."),
                       ("words", .span [.list [.int (-3), .int 100],
                                        .list [.int 5, .int 2]])] } := by decide

/-- C4 (amended): setting a Span layer validates only that the first two
components of each entry are integers (`validate_value` with index arity 2
and the `SpanLayer.__init__` type check); any integer pair, negative,
out of the base layer's bounds, or with start greater than end, is accepted
and stored unchanged. -/
theorem C4_span_set_accepts_any_ints :
    ∀ (doc : Document) (name : String) (m : LayerDesc) (b : String)
      (bm : LayerDesc) (es : List (Int × Int)),
      alookup doc.meta name = some m →
      m.layer_type = some "span" →
      m.base = some b →
      alookup doc.meta b = some bm →
      ¬ (alookup doc.layers b = none ∧ bm.default = none) →
      setItem doc name (.list (es.map fun p => .list [.int p.1, .int p.2])) =
        .ok { doc with layers := (aset doc.layers name
                (.span (es.map fun p => .list [.int p.1, .int p.2]))) } := by
  intro doc name m b bm es h1 h2 h3 h4 h5
  simp only [setItem, h1, h2, h3, h4]
  rw [if_neg (by decide : ¬ ("span" ∉ ["characters", "seq", "span", "div", "element"])),
      if_neg (by decide : ¬ ("span" = "characters")), if_neg h5,
      if_neg (by decide : ¬ ("span" = "seq")), if_pos trivial]
  have hchk : spanInitCheck (es.map fun p => PyVal.list [.int p.1, .int p.2]) = .ok () := by
    induction es with
    | nil => rfl
    | cons p rest ih =>
        rw [List.map_cons]
        show spanInitCheck (PyVal.list [.int p.1, .int p.2] :: _) = .ok ()
        rw [spanInitCheck]
        exact ih
  have hmap : (es.map fun p => PyVal.list [.int p.1, .int p.2]).mapM
      (validate_value · 2) = .ok (es.map fun p => PyVal.list [.int p.1, .int p.2]) := by
    refine mapM_ok_of_forall₂ _ ?_
    rw [List.forall₂_map_left_iff, List.forall₂_map_right_iff, List.forall₂_same]
    intro p _
    rfl
  rw [hmap, except_bind_ok, hchk, except_bind_ok]

/-- C4 witness document update: setting `[[5, 2]]` (start past end). -/
theorem C4_span_set_accepts_any_ints_witness :
    setItem c4doc "words" (.list [.list [.int 5, .int 2]]) =
      .ok { meta := c4meta,
            layers := [("text", .characters "This is a document."),
                       ("words", .span [.list [.int 5, .int 2]])] } :=
  C4_span_set_accepts_any_ints c4doc "words"
    { layer_type := some "span", base := some "text" } "text"
    { layer_type := some "characters" } [(5, 2)]
    (by decide) (by decide) (by decide) (by decide) (by decide)

/-! ## C5 and C6: query evaluation -/

/-- Schema with `pos` (enum data) and `lemma` (string data) seq layers over
`words`, as in the search doctests. -/
def c5meta : List (String × LayerDesc) :=
  [("text", { layer_type := some "characters" }),
   ("words", { layer_type := some "span", base := some "text" }),
   ("pos", { layer_type := some "seq", base := some "words",
             data := some (.enum ["NOUN", "VERB", "ADJ"]) }),
   ("lemma", { layer_type := some "seq", base := some "words",
               data := some .string })]

/-- A document whose `pos` layer holds `["ADJ","VERB"]` and whose `lemma`
layer holds `["colorless","sleep"]`. -/
def c5doc : Document :=
  { meta := c5meta,
    layers := [("text", .characters "colorless sleep"),
               ("words", .span [.list [.int 0, .int 9], .list [.int 10, .int 15]]),
               ("pos", .seq [.str "ADJ", .str "VERB"]),
               ("lemma", .seq [.str "colorless", .str "sleep"])] }

example : (do
    let d1 ← setItem { meta := c5meta, layers := [] } "text" (.str "colorless sleep")
    let d2 ← setItem d1 "words" (.list [.list [.int 0, .int 9], .list [.int 10, .int 15]])
    let d3 ← setItem d2 "pos" (.list [.str "ADJ", .str "VERB"])
    setItem d3 "lemma" (.list [.str "colorless", .str "sleep"])) = .ok c5doc := by decide

/-- C5: what the code actually does.  The first conjunct is the claim's
positive case (`{"$and": {"pos": "VERB", "lemma": "sleep"}}`), which evaluates
to a match as claimed.  The second and third conjuncts replace one conjunct's
value with one that occurs nowhere in that layer (`pos` holds no `"NOUN"`,
`lemma` holds no `"nonexistent"`): the claim requires a non-match, but the
evaluation still reports a match, because `_doc_matches` returns the
*generator object* from `Layer.matches` and a generator object is truthy
whether or not it would yield anything. -/
theorem C5_and_query_generator_truthiness :
    evalQuery 10 c5doc
      [("$and", .cmap [("pos", .str "VERB"), ("lemma", .str "sleep")])] = .ok true ∧
    evalQuery 10 c5doc
      [("$and", .cmap [("pos", .str "NOUN"), ("lemma", .str "sleep")])] = .ok true ∧
    evalQuery 10 c5doc
      [("$and", .cmap [("pos", .str "VERB"), ("lemma", .str "nonexistent")])] = .ok true := by
  decide

/-- C6 counterexample: the query `{"$exists": "sents", "bogus": "v"}`
references the layer name `"bogus"`, which is not defined in the schema, yet
evaluation returns a plain non-match (`false`) rather than raising: the
`$exists` condition is falsy first and the per-key loop breaks before the
unknown name is ever looked at. -/
theorem C6_counterexample :
    evalQuery 10 c5doc [("$exists", .str "sents"), ("bogus", .str "v")] = .ok false := by
  decide

/-- C6 (amended): an unknown layer name raises `Invalid key` whenever its
condition is actually evaluated; in particular whenever it is the first entry
of the query map, the whole evaluation raises rather than returning a
non-match.  (A falsy earlier condition short-circuits the per-key loop, so an
unknown name after it is never reached, see the counterexample.) -/
theorem C6_unknown_layer_query_error :
    ∀ (fuel : Nat) (doc : Document) (k : String) (v : Cond)
      (rest : List (String × Cond)),
      k ≠ "$exists" → k ≠ "$and" → k ≠ "$or" → k ≠ "$not" →
      alookup doc.meta k = none →
      evalQuery (fuel + 1) doc ((k, v) :: rest) = .error ("Invalid key: " ++ k) := by
  intro fuel doc k v rest h1 h2 h3 h4 h5
  have hd : docMatchesF (fuel + 1) doc k v = .error ("Invalid key: " ++ k) := by
    simp only [docMatchesF, if_neg h1, if_neg h2, if_neg h3, if_neg h4, h5]
    rw [if_neg (by simp)]
  show (((k, v) :: rest).allM fun kv => docMatchesF (fuel + 1) doc kv.1 kv.2) =
    .error ("Invalid key: " ++ k)
  rw [List.allM, hd, except_bind_err]

theorem C6_unknown_layer_query_error_witness :
    evalQuery 10 c5doc [("bogus", .str "v")] = .error "Invalid key: bogus" :=
  C6_unknown_layer_query_error 9 c5doc "bogus" (.str "v") []
    (by decide) (by decide) (by decide) (by decide) (by decide)

/-! ## C7: the identifier alphabet -/

/-- The URL-safe base64 alphabet (RFC 4648 section 5: `-` and `_` instead of
`+` and `/`), with the `=` padding character. -/
def urlsafeAlphabet : List Char :=
  ['A','B','C','D','E','F','G','H','I','J','K','L','M','N','O','P','Q','R','S',
   'T','U','V','W','X','Y','Z','a','b','c','d','e','f','g','h','i','j','k','l',
   'm','n','o','p','q','r','s','t','u','v','w','x','y','z','0','1','2','3','4',
   '5','6','7','8','9','-','_','=']

/-- C7 counterexample: for the field map `{"text": "c"}` the returned ID is
`"aE+W"`, whose third character `+` is not a URL-safe base64 character: the
source calls `base64.b64encode` (standard alphabet), not
`base64.urlsafe_b64encode`. -/
theorem C7_counterexample :
    teanga_id_for_doc [] [("text", "c")] = .ok "aE+W" ∧
    '+' ∈ ("aE+W").toList ∧ '+' ∉ urlsafeAlphabet := by decide

theorem b64Char_mem (n : Nat) : b64Char n ∈ b64Alphabet := by
  unfold b64Char
  rcases Nat.lt_or_ge n b64Alphabet.length with h | h
  · rw [List.getD_eq_getElem?_getD, List.getElem?_eq_getElem h]
    exact List.getElem_mem h
  · rw [List.getD_eq_default _ _ h]
    decide

theorem b64encode_mem : ∀ (l : List Nat), ∀ c ∈ b64encode l, c ∈ b64Alphabet ∨ c = '='
  | [] => by intro c hc; simp [b64encode] at hc
  | [a] => by
      intro c hc
      simp only [b64encode, List.mem_cons, List.not_mem_nil, or_false] at hc
      rcases hc with rfl | rfl | rfl | rfl
      exacts [Or.inl (b64Char_mem _), Or.inl (b64Char_mem _), Or.inr rfl, Or.inr rfl]
  | [a, b] => by
      intro c hc
      simp only [b64encode, List.mem_cons, List.not_mem_nil, or_false] at hc
      rcases hc with rfl | rfl | rfl | rfl
      exacts [Or.inl (b64Char_mem _), Or.inl (b64Char_mem _),
              Or.inl (b64Char_mem _), Or.inr rfl]
  | a :: b :: d :: rest => by
      intro c hc
      simp only [b64encode, List.mem_cons] at hc
      rcases hc with rfl | rfl | rfl | rfl | hc
      exacts [Or.inl (b64Char_mem _), Or.inl (b64Char_mem _),
              Or.inl (b64Char_mem _), Or.inl (b64Char_mem _),
              b64encode_mem rest c hc]

/-- C7 (amended): the identifier is built exactly as the claim describes
(sorted fields, NUL separators, SHA-256), but the digest is encoded with
*standard* base64 (`base64.b64encode`): every returned ID consists of
characters of the standard base64 alphabet (plus `=` padding), and may
contain `+` or `/`, which are not URL-safe. -/
theorem C7_id_standard_base64_alphabet :
    ∀ (ids : List String) (kwargs : List (String × String)) (r : String),
      teanga_id_for_doc ids kwargs = .ok r →
      ∀ c ∈ r.toList, c ∈ b64Alphabet ∨ c = '=' := by
  intro ids kwargs r h c hc
  unfold teanga_id_for_doc at h
  by_cases hk : kwargs.length = 0
  · rw [if_pos hk] at h; exact absurd h (by simp)
  · rw [if_neg hk] at h
    cases h
    exact b64encode_mem _ c (List.take_subset _ _ hc)

theorem C7_id_standard_base64_alphabet_witness :
    teanga_id_for_doc [] [("text", "c")] = .ok "aE+W" ∧
    ('+' ∈ b64Alphabet ∨ '+' = '=') :=
  ⟨by decide,
   C7_id_standard_base64_alphabet [] [("text", "c")] "aE+W" (by decide) '+' (by decide)⟩

/-! ## C8: identifier determinism and collision growth -/

/-- The key order used by `sorted(kwargs.keys())`. -/
def keyLE (p q : String × String) : Prop := p.1 ≤ q.1

theorem insertSorted_perm (p : String × String) (l : List (String × String)) :
    List.Perm (insertSorted p l) (p :: l) := by
  induction l with
  | nil => exact List.Perm.refl _
  | cons q rest ih =>
      rw [insertSorted]
      split_ifs with h
      · exact List.Perm.refl _
      · exact (ih.cons q).trans (List.Perm.swap p q rest)

theorem sortByKey_perm (l : List (String × String)) : List.Perm (sortByKey l) l := by
  induction l with
  | nil => exact List.Perm.refl _
  | cons p rest ih => exact (insertSorted_perm p (sortByKey rest)).trans (ih.cons p)

theorem insertSorted_sorted (p : String × String) (l : List (String × String))
    (h : l.Pairwise keyLE) : (insertSorted p l).Pairwise keyLE := by
  induction l with
  | nil => simp [insertSorted, keyLE]
  | cons q rest ih =>
      rw [insertSorted]
      obtain ⟨hq, hrest⟩ := List.pairwise_cons.mp h
      split_ifs with hle
      · refine List.pairwise_cons.mpr ⟨?_, h⟩
        intro x hx
        rcases List.mem_cons.mp hx with rfl | hx
        · exact hle
        · exact le_trans hle (hq x hx)
      · refine List.pairwise_cons.mpr ⟨?_, ih hrest⟩
        intro x hx
        rcases List.mem_cons.mp ((insertSorted_perm p rest).subset hx) with rfl | hx
        · exact le_of_not_le hle
        · exact hq x hx

theorem sortByKey_sorted (l : List (String × String)) :
    (sortByKey l).Pairwise keyLE := by
  induction l with
  | nil => exact List.Pairwise.nil
  | cons p rest ih => exact insertSorted_sorted p (sortByKey rest) ih

/-- Two key-sorted association lists that are permutations of each other and
have duplicate-free keys are equal. -/
theorem sorted_perm_nodup_keys_eq :
    ∀ (l₁ l₂ : List (String × String)), List.Perm l₁ l₂ →
      l₁.Pairwise keyLE → l₂.Pairwise keyLE →
      (l₁.map Prod.fst).Nodup → l₁ = l₂ := by
  intro l₁
  induction l₁ with
  | nil => intro l₂ hp _ _ _; exact (hp.symm.eq_nil).symm
  | cons p t₁ ih =>
      intro l₂ hp hs₁ hs₂ hnd
      cases l₂ with
      | nil => exact absurd hp.eq_nil (by simp)
      | cons q t₂ =>
          have hpq : p = q := by
            have hq₁ : q ∈ p :: t₁ := hp.symm.subset (List.mem_cons_self q t₂)
            have hp₂ : p ∈ q :: t₂ := hp.subset (List.mem_cons_self p t₁)
            rcases List.mem_cons.mp hq₁ with rfl | hq
            · rfl
            · rcases List.mem_cons.mp hp₂ with heq | hptail
              · exact heq
              · have h1 : p.1 ≤ q.1 := (List.pairwise_cons.mp hs₁).1 q hq
                have h2 : q.1 ≤ p.1 := (List.pairwise_cons.mp hs₂).1 p hptail
                have heqk : q.1 = p.1 := le_antisymm h2 h1
                have hmem : p.1 ∈ t₁.map Prod.fst :=
                  heqk ▸ List.mem_map_of_mem Prod.fst hq
                rw [List.map_cons, List.nodup_cons] at hnd
                exact absurd hmem hnd.1
          subst hpq
          have ht : t₁ = t₂ := by
            refine ih t₂ (hp.cons_inv) (List.pairwise_cons.mp hs₁).2
              (List.pairwise_cons.mp hs₂).2 ?_
            rw [List.map_cons, List.nodup_cons] at hnd
            exact hnd.2
          rw [ht]

/-- Sorting by key is invariant under permutation when the keys are distinct
(Python keyword arguments form a map, so their keys are distinct). -/
theorem sortByKey_eq_of_perm {kw₁ kw₂ : List (String × String)} (h : List.Perm kw₁ kw₂)
    (hnd : (kw₁.map Prod.fst).Nodup) : sortByKey kw₁ = sortByKey kw₂ :=
  sorted_perm_nodup_keys_eq _ _
    ((sortByKey_perm kw₁).trans (h.trans (sortByKey_perm kw₂).symm))
    (sortByKey_sorted kw₁) (sortByKey_sorted kw₂)
    (((sortByKey_perm kw₁).map Prod.fst).nodup_iff.mpr hnd)

/-- The SHA-256 digest is always 32 bytes. -/
theorem sha256_length (msg : List Nat) : (sha256 msg).length = 32 := rfl

/-- Base64 produces 4 characters per 3-byte group, padding included. -/
theorem b64encode_length : ∀ l : List Nat, (b64encode l).length = 4 * ((l.length + 2) / 3)
  | [] => rfl
  | [_] => by simp [b64encode]
  | [_, _] => by simp [b64encode]
  | a :: b :: d :: rest => by
      simp only [b64encode, List.length_cons, b64encode_length rest]
      omega

theorem idLoopGo_ge (code : List Char) (ids : List String) :
    ∀ (fuel n : Nat), n ≤ idLoopGo code ids fuel n
  | 0, n => le_refl n
  | fuel + 1, n => by
      rw [idLoopGo]
      split_ifs with h
      · exact le_trans (Nat.le_succ n) (idLoopGo_ge code ids fuel (n + 1))
      · exact le_refl n

/-- C8: determinism and collision growth of `teanga_id_for_doc`.  The
embedded function is pure, so repeated calls with identical arguments are
definitionally equal; the first conjunct states the stronger map-level
determinism the claim's "pure function of (existing_ids, fields)" needs:
the result is invariant under reordering of the (distinct-keyed) fields.
The second conjunct: whenever the first 4 characters of the encoded digest
already occur in `existing_ids`, the returned ID has length at least 5. -/
theorem C8_identifier_determinism_and_growth :
    (∀ (ids : List String) (kw₁ kw₂ : List (String × String)),
       List.Perm kw₁ kw₂ → (kw₁.map Prod.fst).Nodup →
       teanga_id_for_doc ids kw₁ = teanga_id_for_doc ids kw₂) ∧
    (∀ (ids : List String) (kwargs : List (String × String)),
       kwargs ≠ [] →
       String.mk ((idCodeL kwargs).take 4) ∈ ids →
       ∀ r, teanga_id_for_doc ids kwargs = .ok r → 5 ≤ r.length) := by
  constructor
  · intro ids kw₁ kw₂ hperm hnd
    have hcode : idCodeL kw₁ = idCodeL kw₂ := by
      unfold idCodeL idText
      rw [sortByKey_eq_of_perm hperm hnd]
    unfold teanga_id_for_doc
    rw [hperm.length_eq, hcode]
  · intro ids kwargs hne hmem r h
    have hcl : (idCodeL kwargs).length = 44 := by
      unfold idCodeL
      rw [b64encode_length, sha256_length]
    unfold teanga_id_for_doc at h
    rw [if_neg (fun h0 => hne (List.length_eq_zero.mp h0))] at h
    cases h
    have h5 : 5 ≤ idLoop (idCodeL kwargs) ids 4 := by
      unfold idLoop
      rw [hcl]
      rw [show (44 - 4 + 1 : Nat) = 40 + 1 from rfl, idLoopGo,
        if_pos ⟨hmem, by rw [hcl]; omega⟩]
      exact idLoopGo_ge _ _ 40 5
    show 5 ≤ (String.mk ((idCodeL kwargs).take (idLoop (idCodeL kwargs) ids 4))).length
    have hmk : (String.mk ((idCodeL kwargs).take (idLoop (idCodeL kwargs) ids 4))).length
        = ((idCodeL kwargs).take (idLoop (idCodeL kwargs) ids 4)).length := rfl
    rw [hmk, List.length_take, hcl]
    omega

theorem C8_identifier_determinism_and_growth_witness :
    teanga_id_for_doc [] [("en", "a"), ("nl", "b")] =
      teanga_id_for_doc [] [("nl", "b"), ("en", "a")] ∧
    teanga_id_for_doc ["Kjco"] [("text", "This is a document.")] = .ok "KjcoZ" ∧
    5 ≤ ("KjcoZ" : String).length :=
  ⟨C8_identifier_determinism_and_growth.1 [] [("en", "a"), ("nl", "b")]
      [("nl", "b"), ("en", "a")] (List.Perm.swap _ _ _) (by decide),
   by decide,
   C8_identifier_determinism_and_growth.2 ["Kjco"] [("text", "This is a document.")]
      (by decide) (by decide) "KjcoZ" (by decide)⟩

/-! ## C9: link layers do not default `target` to `base` -/

/-- C9 counterexample: defining a span layer `refs` over `text` with
`data="link"` and no target leaves the stored descriptor's `target` as
`None`, not `"text"`: `Corpus.add_layer_meta` passes `target` to `LayerDesc`
verbatim. -/
theorem C9_counterexample :
    add_layer_meta [("text", { layer_type := some "characters" })] (some "refs")
        "span" (some "text") (some .link) none none none =
      .ok [("text", { layer_type := some "characters" }),
           ("refs", { layer_type := some "span", base := some "text",
                      data := some .link })] ∧
    (add_layer_meta [("text", { layer_type := some "characters" })] (some "refs")
        "span" (some "text") (some .link) none none none).toOption.bind
      (fun m => (alookup m "refs").map LayerDesc.target) = some none ∧
    (add_layer_meta [("text", { layer_type := some "characters" })] (some "refs")
        "span" (some "text") (some .link) none none none).toOption.bind
      (fun m => (alookup m "refs").map LayerDesc.target) ≠ some (some "text") := by
  decide

/-- C9 (amended): `add_layer_meta` stores the supplied `target` argument
verbatim; when no target is supplied the resulting descriptor's `target` is
`None` -- also for `data="link"` layers.  (Defaulting the link target to the
base happens only at use sites such as the RDF exporter, not in the schema
descriptor.) -/
theorem C9_link_target_not_defaulted :
    ∀ (meta : List (String × LayerDesc)) (nm lt : String) (base : Option String)
      (data : Option PyData) (lts : Option (List String)) (default : Option PyVal)
      (m' : List (String × LayerDesc)),
      add_layer_meta meta (some nm) lt base data lts none default = .ok m' →
      ∃ d, alookup m' nm = some d ∧ d.target = none := by
  intro meta nm lt base data lts default m' h
  simp only [add_layer_meta] at h
  by_cases hex : alookup meta nm ≠ none
  · rw [if_pos hex] at h; exact absurd h (by simp)
  · rw [if_neg hex] at h
    by_cases hvt : lt ∉ ["characters", "span", "seq", "div", "element"]
    · rw [if_pos hvt] at h; exact absurd h (by simp)
    · rw [if_neg hvt] at h
      by_cases hcb : lt = "characters" ∧ base ≠ none ∧ base ≠ some ""
      · rw [if_pos hcb] at h; exact absurd h (by simp)
      · rw [if_neg hcb] at h
        by_cases hch : lt = "characters"
        · rw [if_pos hch] at h; cases h; exact ⟨_, alookup_aset _ _ _, rfl⟩
        · rw [if_neg hch] at h
          cases hb : base with
          | none => rw [hb] at h; exact absurd h (by simp)
          | some b =>
              rw [hb] at h
              cases h
              exact ⟨_, alookup_aset _ _ _, rfl⟩

theorem C9_link_target_not_defaulted_witness :
    ∃ d, alookup [("text", { layer_type := some "characters" : LayerDesc }),
                  ("refs", { layer_type := some "span", base := some "text",
                             data := some .link })] "refs" = some d ∧
         d.target = none :=
  C9_link_target_not_defaulted [("text", { layer_type := some "characters" })]
    "refs" "span" (some "text") (some .link) none none _ (by decide)

/-! ## C10: one-element entry normalization in `validate_value` -/

/-- C10 counterexample: at index arity 1 (Div/Element entries) a one-element
list holding a string is *rejected* (`validate_value` first checks that
element 0 is integral), not normalized to the bare string as the claim
states. -/
theorem C10_counterexample :
    validate_value (.list [.str "a"]) 1 = .error "Bad value" ∧
    validate_value (.list [.str "a"]) 1 ≠ .ok (.str "a") := by decide

/-- C10 (amended): `validate_value` unwraps a one-element list holding a
string or an integer to the bare scalar at arity 0 (Seq values), and a
one-element *integer* list at arity 1 (Div/Element entries), rejecting `[s]`
with a string `s` at arity 1 and a one-element list of anything else at both
arities (first six conjuncts).  At the storage level: a Seq value whose
entries are such singletons is stored with every entry unwrapped (seventh
conjunct); a Div entry `[n]` is stored as the bare integer `n`,
indistinguishable from a bare index `n` supplied directly (eighth conjunct);
but for an Element layer the normalized bare integer then makes
`ElementLayer.__init__` subscript an integer (`span[0]`, a Python
`TypeError`), so the set call fails and nothing is stored, for `[n]` and for
a bare `n` alike (ninth conjunct). -/
theorem C10_singleton_normalization :
    (∀ s : String, validate_value (.list [.str s]) 0 = .ok (.str s)) ∧
    (∀ n : Int, validate_value (.list [.int n]) 0 = .ok (.int n)) ∧
    (∀ n : Int, validate_value (.list [.int n]) 1 = .ok (.int n)) ∧
    (∀ s : String, validate_value (.list [.str s]) 1 = .error "Bad value") ∧
    (∀ vs : List PyVal, validate_value (.list [.list vs]) 0 = .error "Bad value") ∧
    (∀ vs : List PyVal, validate_value (.list [.list vs]) 1 = .error "Bad value") ∧
    (∀ (doc : Document) (name : String) (m : LayerDesc) (b : String)
       (bm : LayerDesc) (xs : List PyVal),
       alookup doc.meta name = some m →
       m.layer_type = some "seq" →
       m.base = some b →
       alookup doc.meta b = some bm →
       ¬ (alookup doc.layers b = none ∧ bm.default = none) →
       baseLayerLen doc b = .ok xs.length →
       (∀ x ∈ xs, isString x = true ∨ isIntegral x = true) →
       setItem doc name (.list (xs.map fun x => .list [x])) =
         .ok { doc with layers := (aset doc.layers name (.seq xs)) }) ∧
    (∀ (doc : Document) (name : String) (m : LayerDesc) (b : String)
       (bm : LayerDesc) (ns : List Int),
       alookup doc.meta name = some m →
       m.layer_type = some "div" →
       m.base = some b →
       alookup doc.meta b = some bm →
       ¬ (alookup doc.layers b = none ∧ bm.default = none) →
       setItem doc name (.list (ns.map fun n => .list [.int n])) =
         .ok { doc with layers := (aset doc.layers name (.div (ns.map PyVal.int))) } ∧
       setItem doc name (.list (ns.map PyVal.int)) =
         .ok { doc with layers := (aset doc.layers name (.div (ns.map PyVal.int))) }) ∧
    (∀ (doc : Document) (name : String) (m : LayerDesc) (b : String)
       (bm : LayerDesc) (n : Int),
       alookup doc.meta name = some m →
       m.layer_type = some "element" →
       m.base = some b →
       alookup doc.meta b = some bm →
       ¬ (alookup doc.layers b = none ∧ bm.default = none) →
       (setItem doc name (.list [.list [.int n]])).isOk = false ∧
       (setItem doc name (.list [.int n])).isOk = false) := by
  refine ⟨fun _ => rfl, fun _ => rfl, fun _ => rfl, fun _ => rfl, fun _ => rfl,
    fun _ => rfl, ?_, ?_, ?_⟩
  · intro doc name m b bm xs h1 h2 h3 h4 h5 hlen hx
    simp only [setItem, h1, h2, h3, h4]
    rw [if_neg (by decide : ¬ ("seq" ∉ ["characters", "seq", "span", "div", "element"])),
        if_neg (by decide : ¬ ("seq" = "characters")), if_neg h5, if_pos trivial]
    have hmap : (xs.map fun x => PyVal.list [x]).mapM (validate_value · 0) =
        .ok xs := by
      refine mapM_ok_of_forall₂ _ ?_
      rw [List.forall₂_map_left_iff, List.forall₂_same]
      intro x hxm
      cases x with
      | str s => rfl
      | int k => rfl
      | list vs => rcases hx _ hxm with h | h <;> simp [isString, isIntegral] at h
    rw [hmap, except_bind_ok, hlen, except_bind_ok,
      if_neg (fun hc => hc rfl)]
  · intro doc name m b bm ns h1 h2 h3 h4 h5
    have hdiv : divInitCheck (ns.map PyVal.int) = .ok () := by
      induction ns with
      | nil => rfl
      | cons k rest ih =>
          rw [List.map_cons]
          show divInitCheck (PyVal.int k :: _) = .ok ()
          exact ih
    constructor
    · simp only [setItem, h1, h2, h3, h4]
      rw [if_neg (by decide : ¬ ("div" ∉ ["characters", "seq", "span", "div", "element"])),
          if_neg (by decide : ¬ ("div" = "characters")), if_neg h5,
          if_neg (by decide : ¬ ("div" = "seq")),
          if_neg (by decide : ¬ ("div" = "span")), if_pos trivial]
      have hmap : (ns.map fun n => PyVal.list [.int n]).mapM (validate_value · 1) =
          .ok (ns.map PyVal.int) := by
        refine mapM_ok_of_forall₂ _ ?_
        rw [List.forall₂_map_left_iff, List.forall₂_map_right_iff, List.forall₂_same]
        intro k _
        rfl
      rw [hmap, except_bind_ok, hdiv, except_bind_ok]
    · simp only [setItem, h1, h2, h3, h4]
      rw [if_neg (by decide : ¬ ("div" ∉ ["characters", "seq", "span", "div", "element"])),
          if_neg (by decide : ¬ ("div" = "characters")), if_neg h5,
          if_neg (by decide : ¬ ("div" = "seq")),
          if_neg (by decide : ¬ ("div" = "span")), if_pos trivial]
      have hmap : (ns.map PyVal.int).mapM (validate_value · 1) =
          .ok (ns.map PyVal.int) := by
        refine mapM_ok_of_forall₂ _ ?_
        rw [List.forall₂_map_left_iff, List.forall₂_map_right_iff, List.forall₂_same]
        intro k _
        rfl
      rw [hmap, except_bind_ok, hdiv, except_bind_ok]
  · intro doc name m b bm n h1 h2 h3 h4 h5
    constructor
    · simp only [setItem, h1, h2, h3, h4]
      rw [if_neg (by decide : ¬ ("element" ∉ ["characters", "seq", "span", "div", "element"])),
          if_neg (by decide : ¬ ("element" = "characters")), if_neg h5,
          if_neg (by decide : ¬ ("element" = "seq")),
          if_neg (by decide : ¬ ("element" = "span")),
          if_neg (by decide : ¬ ("element" = "div"))]
      rfl
    · simp only [setItem, h1, h2, h3, h4]
      rw [if_neg (by decide : ¬ ("element" ∉ ["characters", "seq", "span", "div", "element"])),
          if_neg (by decide : ¬ ("element" = "characters")), if_neg h5,
          if_neg (by decide : ¬ ("element" = "seq")),
          if_neg (by decide : ¬ ("element" = "span")),
          if_neg (by decide : ¬ ("element" = "div"))]
      rfl

/-- Schema with div, element and seq layers over a 2-character text, for the
C10 witness. -/
def c10meta : List (String × LayerDesc) :=
  [("text", { layer_type := some "characters" }),
   ("divs", { layer_type := some "div", base := some "text" }),
   ("elems", { layer_type := some "element", base := some "text" }),
   ("vals", { layer_type := some "seq", base := some "text" })]

def c10doc : Document :=
  { meta := c10meta, layers := [("text", .characters "ab")] }

theorem C10_singleton_normalization_witness :
    setItem c10doc "vals" (.list [.list [.str "A"], .list [.str "B"]]) =
      .ok { c10doc with layers := (aset c10doc.layers "vals" (.seq [.str "A", .str "B"])) } ∧
    setItem c10doc "divs" (.list [.list [.int 1]]) =
      .ok { c10doc with layers := (aset c10doc.layers "divs" (.div [.int 1])) } ∧
    setItem c10doc "divs" (.list [.int 1]) =
      .ok { c10doc with layers := (aset c10doc.layers "divs" (.div [.int 1])) } ∧
    (setItem c10doc "elems" (.list [.list [.int 1]])).isOk = false ∧
    (setItem c10doc "elems" (.list [.int 1])).isOk = false :=
  ⟨C10_singleton_normalization.2.2.2.2.2.2.1 c10doc "vals"
      { layer_type := some "seq", base := some "text" } "text"
      { layer_type := some "characters" } [.str "A", .str "B"]
      (by decide) (by decide) (by decide) (by decide) (by decide) (by decide)
      (by decide),
   (C10_singleton_normalization.2.2.2.2.2.2.2.1 c10doc "divs"
      { layer_type := some "div", base := some "text" } "text"
      { layer_type := some "characters" } [1]
      (by decide) (by decide) (by decide) (by decide) (by decide)).1,
   (C10_singleton_normalization.2.2.2.2.2.2.2.1 c10doc "divs"
      { layer_type := some "div", base := some "text" } "text"
      { layer_type := some "characters" } [1]
      (by decide) (by decide) (by decide) (by decide) (by decide)).2,
   (C10_singleton_normalization.2.2.2.2.2.2.2.2 c10doc "elems"
      { layer_type := some "element", base := some "text" } "text"
      { layer_type := some "characters" } 1
      (by decide) (by decide) (by decide) (by decide) (by decide)).1,
   (C10_singleton_normalization.2.2.2.2.2.2.2.2 c10doc "elems"
      { layer_type := some "element", base := some "text" } "text"
      { layer_type := some "characters" } 1
      (by decide) (by decide) (by decide) (by decide) (by decide)).2⟩

end Teanga
